import Mathlib

/-!
Verification of the wire-format codec and generic packet classification layer
of the x11rb sample (src/x11_utils.rs and src/protocol/xinerama.rs).

Byte buffers are modelled as `List Nat`, each element standing for one `u8`
(so a well-formed buffer has every element `< 256`).  The host-native byte
order assumed throughout the source is modelled as little-endian.
-/

set_option maxRecDepth 4096

namespace X11

/-- A byte buffer (`crate::utils::Buffer`, a slice of `u8`). -/
abbrev Buffer := List Nat

/-- A buffer is well-formed when every element fits in one byte. -/
def ByteBuffer (b : Buffer) : Prop := ∀ x ∈ b, x < 256

instance (b : Buffer) : Decidable (ByteBuffer b) := by
  unfold ByteBuffer; infer_instance

/-- `crate::errors::ParseError`.  The only constructor the source ever
produces is `ParseError::ParseError`, used both for length mismatches and
for failed narrowing conversions. -/
inductive ParseError
  | ParseError
deriving DecidableEq, Repr

/-- Little-endian recomposition of a byte list, i.e. `from_ne_bytes` on a
little-endian host. -/
def fromBytesLE : List Nat → Nat
  | [] => 0
  | b :: bs => b + 256 * fromBytesLE bs

/-- Little-endian decomposition of a value into `w` bytes, i.e. `to_ne_bytes`
on a little-endian host. -/
def toBytesLE : Nat → Nat → List Nat
  | 0, _ => []
  | w + 1, v => v % 256 :: toBytesLE w (v / 256)

/-- `u16::from_ne_bytes([b0, b1])`. -/
def u16_from_ne_bytes (b0 b1 : Nat) : Nat := fromBytesLE [b0, b1]

/-- `u32::from_ne_bytes([b0, b1, b2, b3])`. -/
def u32_from_ne_bytes (b0 b1 b2 b3 : Nat) : Nat := fromBytesLE [b0, b1, b2, b3]

/-- Modelled from the spec: the generated constant
`crate::generated::xproto::KEYMAP_NOTIFY_EVENT` (generated code is not part
of the sample); the spec calls it the fixed "keymap notify" event kind.
Its standard X11 value is 11. -/
def KEYMAP_NOTIFY_EVENT : Nat := 11

/-- Modelled from the spec: the generated constant
`crate::generated::xproto::GE_GENERIC_EVENT` (generated code is not part of
the sample); the spec calls it the distinguished "generic event" kind.
Its standard X11 value is 35. -/
def GE_GENERIC_EVENT : Nat := 35

/-- `const REPLY: u8 = 1;` from x11_utils.rs. -/
def REPLY : Nat := 1

namespace Event

/-- `Event::raw_response_type`: byte 0 of the raw bytes. -/
def raw_response_type (bytes : Buffer) : Nat := bytes.getD 0 0

/-- `Event::response_type`: byte 0 masked with `0x7f` (`% 128` on a byte). -/
def response_type (bytes : Buffer) : Nat := raw_response_type bytes % 128

/-- `Event::server_generated`: bit 7 of byte 0 is unset. -/
def server_generated (bytes : Buffer) : Bool := raw_response_type bytes % 256 / 128 = 0

/-- `Event::raw_sequence_number`: `None` for keymap-notify, otherwise the
16-bit native-order value at byte offsets 2-3. -/
def raw_sequence_number (bytes : Buffer) : Option Nat :=
  if response_type bytes = KEYMAP_NOTIFY_EVENT then none
  else some (u16_from_ne_bytes (bytes.getD 2 0) (bytes.getD 3 0))

end Event

/-- `GenericEvent`: a classified packet wrapping its raw buffer. -/
structure GenericEvent where
  buffer : Buffer
deriving DecidableEq, Repr

def GenericEvent.raw_bytes (e : GenericEvent) : Buffer := e.buffer

def GenericEvent.response_type (e : GenericEvent) : Nat :=
  Event.response_type e.raw_bytes

def GenericEvent.raw_sequence_number (e : GenericEvent) : Option Nat :=
  Event.raw_sequence_number e.raw_bytes

/-- `TryFrom<Buffer> for GenericEvent`: validate the length law and classify.
(The `u32 → usize` conversion of the length field always succeeds in the
`Nat` model, as it does on any platform with at least 32-bit `usize`.) -/
def GenericEvent.try_from (value : Buffer) : Except ParseError GenericEvent :=
  if value.length < 32 then .error .ParseError
  else
    let length_field :=
      u32_from_ne_bytes (value.getD 4 0) (value.getD 5 0) (value.getD 6 0) (value.getD 7 0)
    let actual_length := value.length
    let event := GenericEvent.mk value
    let expected_length :=
      if event.response_type = GE_GENERIC_EVENT ∨ event.response_type = REPLY
      then 32 + 4 * length_field
      else 32
    if actual_length ≠ expected_length then .error .ParseError
    else .ok event

/-- `GenericError`: an error packet wrapping its raw buffer. -/
structure GenericError where
  buffer : Buffer
deriving DecidableEq, Repr

def GenericError.raw_bytes (e : GenericError) : Buffer := e.buffer

def GenericError.response_type (e : GenericError) : Nat :=
  Event.response_type e.raw_bytes

/-- `GenericError::error_code`: byte 1. -/
def GenericError.error_code (e : GenericError) : Nat := e.raw_bytes.getD 1 0

/-- `From<GenericError> for GenericEvent`: rewrap the same buffer. -/
def GenericEvent.from_error (e : GenericError) : GenericEvent := ⟨e.buffer⟩

/-- `TryFrom<GenericEvent> for GenericError`: narrow only when the response
type is 0. -/
def GenericError.try_from_event (event : GenericEvent) : Except ParseError GenericError :=
  if event.response_type ≠ 0 then .error .ParseError
  else .ok ⟨event.buffer⟩

/-- `TryFrom<Buffer> for GenericError`: classify, then narrow. -/
def GenericError.try_from (value : Buffer) : Except ParseError GenericError :=
  match GenericEvent.try_from value with
  | .error e => .error e
  | .ok ev => GenericError.try_from_event ev

/-!
Primitive codec: `implement_try_parse!` / `implement_serialize!` instantiated
at every fixed-width integer type, `forward_float!` for the floats, and the
hand-written `bool` implementations.  The macros expand to identical code per
byte width `w`, captured here once, generically in `w` (unsigned values are
the `Nat` below `2 ^ (8 * w)`, signed values the `Int` in
`[-2 ^ (8 * w - 1), 2 ^ (8 * w - 1))` with two's-complement bytes).
-/

/-- `implement_try_parse!` for a `w`-byte unsigned integer: fail when fewer
than `w` bytes are available, otherwise read bytes `0..w` in native order and
return the remainder. -/
def uint_try_parse (w : Nat) (value : Buffer) : Except ParseError (Nat × Buffer) :=
  if value.length < w then .error .ParseError
  else .ok (fromBytesLE (value.take w), value.drop w)

/-- `implement_serialize!` for a `w`-byte unsigned integer: `to_ne_bytes`. -/
def uint_serialize (w : Nat) (v : Nat) : Buffer := toBytesLE w v

/-- Two's-complement reading of a `w`-byte unsigned bit pattern as a signed
integer (what `iN::from_ne_bytes` does with the recomposed bytes). -/
def toSigned (w : Nat) (n : Nat) : Int :=
  if n < 2 ^ (8 * w - 1) then (n : Int) else (n : Int) - 2 ^ (8 * w)

/-- `implement_try_parse!` for a `w`-byte signed integer. -/
def int_try_parse (w : Nat) (value : Buffer) : Except ParseError (Int × Buffer) :=
  if value.length < w then .error .ParseError
  else .ok (toSigned w (fromBytesLE (value.take w)), value.drop w)

/-- `implement_serialize!` for a `w`-byte signed integer: the bytes of its
two's-complement bit pattern. -/
def int_serialize (w : Nat) (v : Int) : Buffer :=
  toBytesLE w (v % (2 ^ (8 * w) : Nat)).toNat

def u8_try_parse : Buffer → Except ParseError (Nat × Buffer) := uint_try_parse 1
def u16_try_parse : Buffer → Except ParseError (Nat × Buffer) := uint_try_parse 2
def u32_try_parse : Buffer → Except ParseError (Nat × Buffer) := uint_try_parse 4
def u64_try_parse : Buffer → Except ParseError (Nat × Buffer) := uint_try_parse 8
def i8_try_parse : Buffer → Except ParseError (Int × Buffer) := int_try_parse 1
def i16_try_parse : Buffer → Except ParseError (Int × Buffer) := int_try_parse 2
def i32_try_parse : Buffer → Except ParseError (Int × Buffer) := int_try_parse 4
def i64_try_parse : Buffer → Except ParseError (Int × Buffer) := int_try_parse 8

def u8_serialize : Nat → Buffer := uint_serialize 1
def u16_serialize : Nat → Buffer := uint_serialize 2
def u32_serialize : Nat → Buffer := uint_serialize 4
def u64_serialize : Nat → Buffer := uint_serialize 8
def i8_serialize : Int → Buffer := int_serialize 1
def i16_serialize : Int → Buffer := int_serialize 2
def i32_serialize : Int → Buffer := int_serialize 4
def i64_serialize : Int → Buffer := int_serialize 8

/-- An `f32` value identified with its bit pattern, as the wire format and
`forward_float!` treat it (equality is bit-pattern equality). -/
structure F32 where
  bits : Nat
deriving DecidableEq, Repr

/-- An `f64` value identified with its bit pattern. -/
structure F64 where
  bits : Nat
deriving DecidableEq, Repr

def F32.from_bits (n : Nat) : F32 := ⟨n⟩
def F32.to_bits (f : F32) : Nat := f.bits
def F64.from_bits (n : Nat) : F64 := ⟨n⟩
def F64.to_bits (f : F64) : Nat := f.bits

/-- `forward_float!(f32: u32)`, parsing side: parse a `u32`, reinterpret the
bits. -/
def f32_try_parse (value : Buffer) : Except ParseError (F32 × Buffer) :=
  match u32_try_parse value with
  | .error e => .error e
  | .ok (data, remaining) => .ok (F32.from_bits data, remaining)

/-- `forward_float!(f32: u32)`, serializing side: serialize `to_bits`. -/
def f32_serialize (f : F32) : Buffer := u32_serialize f.to_bits

/-- `forward_float!(f64: u64)`, parsing side. -/
def f64_try_parse (value : Buffer) : Except ParseError (F64 × Buffer) :=
  match u64_try_parse value with
  | .error e => .error e
  | .ok (data, remaining) => .ok (F64.from_bits data, remaining)

/-- `forward_float!(f64: u64)`, serializing side. -/
def f64_serialize (f : F64) : Buffer := u64_serialize f.to_bits

/-- `TryParse for bool`: parse a `u8`, then `data != 0`. -/
def bool_try_parse (value : Buffer) : Except ParseError (Bool × Buffer) :=
  match u8_try_parse value with
  | .error e => .error e
  | .ok (data, remaining) => .ok (decide (data ≠ 0), remaining)

/-- `Serialize for bool`: the single byte `*self as u8`. -/
def bool_serialize (b : Bool) : Buffer := [if b then 1 else 0]

/-- `Serialize for [T]`: concatenation of each item's bytes, no length
prefix. -/
def slice_serialize {T : Type} (item_serialize : T → Buffer) (xs : List T) : Buffer :=
  xs.foldl (fun result item => result ++ item_serialize item) []

/-!
Extension request dispatch (src/protocol/xinerama.rs).  The connection
collaborator (`RequestConnection`), the request structs and their
serialization live outside the sample (crate `x11rb_protocol` and
`crate::connection`), so they are modelled from the spec; the dispatch logic
(`major_opcode`, the `send_*` and public request functions) is translated
from the source.
-/

/-- `crate::errors::ConnectionError`, modelled from the spec: the taxonomy
names `UnsupportedExtension` (server lacks the requested extension) and
transport-level failures, opaque to this core. -/
inductive ConnectionError
  | UnsupportedExtension
  | ConnectionClosed
deriving DecidableEq, Repr

/-- Modelled from the spec: `ExtensionInfo` is the immutable triple
`(major_opcode, first_event, first_error)`. -/
structure ExtensionInfo where
  major_opcode : Nat
  first_event : Nat
  first_error : Nat
deriving DecidableEq, Repr

/-- Modelled from the spec: a `Cookie` is an opaque handle bound to the
transport-assigned sequence number of the sent request. -/
structure Cookie where
  sequence : Nat
deriving DecidableEq, Repr

/-- Modelled from the spec: the external connection collaborator.
`extension_information` returns cached or freshly queried opcode metadata;
`send_request_with_reply` submits byte slices to the transport.  The
submissions made so far are kept in an explicit log so that "the transport
was (not) contacted" is observable. -/
structure ModelConnection where
  extension_information : Except ConnectionError (Option ExtensionInfo)
  sent : List (List Buffer)
deriving Repr

/-- Modelled from the spec: submitting byte slices appends them to the
transport log and returns a cookie bound to the assigned sequence number. -/
def ModelConnection.send_request_with_reply (conn : ModelConnection)
    (slices : List Buffer) : ModelConnection × Cookie :=
  (⟨conn.extension_information, conn.sent ++ [slices]⟩, ⟨conn.sent.length⟩)

/-- `major_opcode` from xinerama.rs: look up the extension information and
fail with `UnsupportedExtension` when the extension is absent. -/
def major_opcode (conn : ModelConnection) : Except ConnectionError Nat :=
  match conn.extension_information with
  | .error e => .error e
  | .ok none => .error .UnsupportedExtension
  | .ok (some info) => .ok info.major_opcode

structure QueryVersionRequest where
  major : Nat
  minor : Nat
deriving DecidableEq, Repr

/-- Modelled from the spec: `QueryVersionRequest::serialize` (crate
`x11rb_protocol`) builds the wire request stamped with the resolved
extension major opcode (minor opcode 0, length 2, then the fields). -/
def QueryVersionRequest.serialize (req : QueryVersionRequest) (opcode : Nat) :
    List Buffer :=
  [[opcode, 0, 2, 0, req.major % 256, req.minor % 256, 0, 0]]

structure GetStateRequest where
  window : Nat
deriving DecidableEq, Repr

/-- Modelled from the spec: `GetStateRequest::serialize` (minor opcode 1). -/
def GetStateRequest.serialize (req : GetStateRequest) (opcode : Nat) :
    List Buffer :=
  [[opcode, 1, 2, 0] ++ toBytesLE 4 req.window]

structure GetScreenCountRequest where
  window : Nat
deriving DecidableEq, Repr

/-- Modelled from the spec: `GetScreenCountRequest::serialize` (minor opcode
2). -/
def GetScreenCountRequest.serialize (req : GetScreenCountRequest) (opcode : Nat) :
    List Buffer :=
  [[opcode, 2, 2, 0] ++ toBytesLE 4 req.window]

structure GetScreenSizeRequest where
  window : Nat
  screen : Nat
deriving DecidableEq, Repr

/-- Modelled from the spec: `GetScreenSizeRequest::serialize` (minor opcode
3). -/
def GetScreenSizeRequest.serialize (req : GetScreenSizeRequest) (opcode : Nat) :
    List Buffer :=
  [[opcode, 3, 3, 0] ++ toBytesLE 4 req.window ++ toBytesLE 4 req.screen]

structure IsActiveRequest
deriving DecidableEq, Repr

/-- Modelled from the spec: `IsActiveRequest::serialize` (minor opcode 4). -/
def IsActiveRequest.serialize (_req : IsActiveRequest) (opcode : Nat) :
    List Buffer :=
  [[opcode, 4, 1, 0]]

structure QueryScreensRequest
deriving DecidableEq, Repr

/-- Modelled from the spec: `QueryScreensRequest::serialize` (minor opcode
5). -/
def QueryScreensRequest.serialize (_req : QueryScreensRequest) (opcode : Nat) :
    List Buffer :=
  [[opcode, 5, 1, 0]]

/-- `send_query_version`: resolve the opcode (propagating its error without
touching the transport), serialize with it, submit to the transport. -/
def send_query_version (req : QueryVersionRequest) (conn : ModelConnection) :
    Except ConnectionError Cookie × ModelConnection :=
  match major_opcode conn with
  | .error e => (.error e, conn)
  | .ok opcode =>
    let (conn2, cookie) := conn.send_request_with_reply (req.serialize opcode)
    (.ok cookie, conn2)

/-- `query_version`: build the request from typed parameters and send it. -/
def query_version (conn : ModelConnection) (major minor : Nat) :
    Except ConnectionError Cookie × ModelConnection :=
  send_query_version ⟨major, minor⟩ conn

/-- `send_get_state`. -/
def send_get_state (req : GetStateRequest) (conn : ModelConnection) :
    Except ConnectionError Cookie × ModelConnection :=
  match major_opcode conn with
  | .error e => (.error e, conn)
  | .ok opcode =>
    let (conn2, cookie) := conn.send_request_with_reply (req.serialize opcode)
    (.ok cookie, conn2)

/-- `get_state`. -/
def get_state (conn : ModelConnection) (window : Nat) :
    Except ConnectionError Cookie × ModelConnection :=
  send_get_state ⟨window⟩ conn

/-- `send_get_screen_count`. -/
def send_get_screen_count (req : GetScreenCountRequest) (conn : ModelConnection) :
    Except ConnectionError Cookie × ModelConnection :=
  match major_opcode conn with
  | .error e => (.error e, conn)
  | .ok opcode =>
    let (conn2, cookie) := conn.send_request_with_reply (req.serialize opcode)
    (.ok cookie, conn2)

/-- `get_screen_count`. -/
def get_screen_count (conn : ModelConnection) (window : Nat) :
    Except ConnectionError Cookie × ModelConnection :=
  send_get_screen_count ⟨window⟩ conn

/-- `send_get_screen_size`. -/
def send_get_screen_size (req : GetScreenSizeRequest) (conn : ModelConnection) :
    Except ConnectionError Cookie × ModelConnection :=
  match major_opcode conn with
  | .error e => (.error e, conn)
  | .ok opcode =>
    let (conn2, cookie) := conn.send_request_with_reply (req.serialize opcode)
    (.ok cookie, conn2)

/-- `get_screen_size`. -/
def get_screen_size (conn : ModelConnection) (window screen : Nat) :
    Except ConnectionError Cookie × ModelConnection :=
  send_get_screen_size ⟨window, screen⟩ conn

/-- `send_is_active`. -/
def send_is_active (req : IsActiveRequest) (conn : ModelConnection) :
    Except ConnectionError Cookie × ModelConnection :=
  match major_opcode conn with
  | .error e => (.error e, conn)
  | .ok opcode =>
    let (conn2, cookie) := conn.send_request_with_reply (req.serialize opcode)
    (.ok cookie, conn2)

/-- `is_active`. -/
def is_active (conn : ModelConnection) :
    Except ConnectionError Cookie × ModelConnection :=
  send_is_active ⟨⟩ conn

/-- `send_query_screens`. -/
def send_query_screens (req : QueryScreensRequest) (conn : ModelConnection) :
    Except ConnectionError Cookie × ModelConnection :=
  match major_opcode conn with
  | .error e => (.error e, conn)
  | .ok opcode =>
    let (conn2, cookie) := conn.send_request_with_reply (req.serialize opcode)
    (.ok cookie, conn2)

/-- `query_screens`. -/
def query_screens (conn : ModelConnection) :
    Except ConnectionError Cookie × ModelConnection :=
  send_query_screens ⟨⟩ conn

/-- Tag distinguishing buffers held by a `GenericEvent` from buffers held by
a `GenericError`. -/
inductive PacketKind
  | event
  | error
deriving DecidableEq, Repr

/-- Buffers reachable through the public constructors of `GenericEvent` and
`GenericError`: classification from a raw buffer, widening an error to an
event, narrowing an event to an error, and the composed buffer-to-error
conversion. -/
inductive Reachable : PacketKind → Buffer → Prop
  | event_of_buffer (b : Buffer) (e : GenericEvent) :
      GenericEvent.try_from b = .ok e → Reachable .event e.buffer
  | event_of_error (b : Buffer) :
      Reachable .error b → Reachable .event (GenericEvent.from_error ⟨b⟩).buffer
  | error_narrow (b : Buffer) (err : GenericError) :
      Reachable .event b → GenericError.try_from_event ⟨b⟩ = .ok err →
      Reachable .error err.buffer
  | error_of_buffer (b : Buffer) (err : GenericError) :
      GenericError.try_from b = .ok err → Reachable .error err.buffer

/-- The 32-bit native-order length field at byte offset 4, following the
spec's words (for comparison with the classifier in the source). -/
def length_field_at_4 (b : Buffer) : Nat :=
  u32_from_ne_bytes (b.getD 4 0) (b.getD 5 0) (b.getD 6 0) (b.getD 7 0)

/-- The classifier total-length law, following the spec's words: for the
reply kind or the generic-event kind the buffer length must be
`32 + 4 * L`; for every other kind it must be exactly 32. -/
def classifier_length_law (b : Buffer) : Prop :=
  if Event.response_type b = REPLY ∨ Event.response_type b = GE_GENERIC_EVENT
  then b.length = 32 + 4 * length_field_at_4 b
  else b.length = 32

instance (b : Buffer) : Decidable (classifier_length_law b) := by
  unfold classifier_length_law
  infer_instance

/-! Inversion and recomposition lemmas. -/

theorem fromBytesLE_toBytesLE (w : Nat) (v : Nat) (h : v < 256 ^ w) :
    fromBytesLE (toBytesLE w v) = v := by
  induction w generalizing v with
  | zero =>
    simp only [pow_zero] at h
    simp [toBytesLE, fromBytesLE]
    omega
  | succ w ih =>
    simp only [toBytesLE, fromBytesLE]
    rw [ih (v / 256) (by rw [pow_succ] at h; omega)]
    omega

theorem toBytesLE_fromBytesLE (bs : List Nat) (h : ∀ b ∈ bs, b < 256) :
    toBytesLE bs.length (fromBytesLE bs) = bs := by
  induction bs with
  | nil => rfl
  | cons b t ih =>
    have hb : b < 256 := h b (List.mem_cons_self b t)
    simp only [List.length_cons, toBytesLE, fromBytesLE]
    have h1 : (b + 256 * fromBytesLE t) % 256 = b := by omega
    have h2 : (b + 256 * fromBytesLE t) / 256 = fromBytesLE t := by omega
    rw [h1, h2, ih (fun x hx => h x (List.mem_cons_of_mem b hx))]

theorem toBytesLE_length (w v : Nat) : (toBytesLE w v).length = w := by
  induction w generalizing v with
  | zero => rfl
  | succ w ih => simp [toBytesLE, ih]

theorem toBytesLE_bytes (w v : Nat) : ∀ x ∈ toBytesLE w v, x < 256 := by
  induction w generalizing v with
  | zero => simp [toBytesLE]
  | succ w ih =>
    intro x hx
    simp only [toBytesLE, List.mem_cons] at hx
    rcases hx with h | h
    · omega
    · exact ih (v / 256) x h

theorem pow_bridge (w : Nat) : (256 : Nat) ^ w = 2 ^ (8 * w) := by
  rw [show (256 : Nat) = 2 ^ 8 by norm_num, ← pow_mul]

theorem uint_try_parse_short (w : Nat) (value : Buffer) (h : value.length < w) :
    uint_try_parse w value = .error .ParseError := by
  unfold uint_try_parse
  rw [if_pos h]

theorem uint_try_parse_long (w : Nat) (value : Buffer) (h : w ≤ value.length) :
    uint_try_parse w value = .ok (fromBytesLE (value.take w), value.drop w) := by
  unfold uint_try_parse
  rw [if_neg (by omega)]

theorem int_try_parse_short (w : Nat) (value : Buffer) (h : value.length < w) :
    int_try_parse w value = .error .ParseError := by
  unfold int_try_parse
  rw [if_pos h]

theorem int_try_parse_long (w : Nat) (value : Buffer) (h : w ≤ value.length) :
    int_try_parse w value = .ok (toSigned w (fromBytesLE (value.take w)), value.drop w) := by
  unfold int_try_parse
  rw [if_neg (by omega)]

theorem uint_roundtrip (w v : Nat) (h : v < 2 ^ (8 * w)) :
    uint_try_parse w (uint_serialize w v) = .ok (v, []) := by
  have h256 : v < 256 ^ w := by rw [pow_bridge]; exact h
  have hl := toBytesLE_length w v
  unfold uint_try_parse uint_serialize
  rw [if_neg (by omega)]
  rw [List.take_of_length_le (by omega), List.drop_eq_nil_of_le (by omega),
    fromBytesLE_toBytesLE w v h256]

theorem int_roundtrip (w : Nat) (hw : 0 < w) (v : Int)
    (hlo : -((2 ^ (8 * w - 1) : Nat) : Int) ≤ v)
    (hhi : v < ((2 ^ (8 * w - 1) : Nat) : Int)) :
    int_try_parse w (int_serialize w v) = .ok (v, []) := by
  have hM : (2 ^ (8 * w) : Nat) = 2 * 2 ^ (8 * w - 1) := by
    have h1 : 8 * w - 1 + 1 = 8 * w := by omega
    calc (2 : Nat) ^ (8 * w) = 2 ^ (8 * w - 1 + 1) := by rw [h1]
    _ = 2 * 2 ^ (8 * w - 1) := by rw [pow_succ]; ring
  have hcastM : (((2 ^ (8 * w) : Nat) : Int)) = 2 * ((2 ^ (8 * w - 1) : Nat) : Int) := by
    exact_mod_cast congrArg (Nat.cast : Nat → Int) hM
  have hMpos : (0 : Int) < ((2 ^ (8 * w) : Nat) : Int) := by positivity
  have hmod_lt : v % ((2 ^ (8 * w) : Nat) : Int) < ((2 ^ (8 * w) : Nat) : Int) :=
    Int.emod_lt_of_pos v hMpos
  have hmod_nonneg : 0 ≤ v % ((2 ^ (8 * w) : Nat) : Int) :=
    Int.emod_nonneg v (by omega)
  unfold int_try_parse int_serialize
  set n : Nat := (v % ((2 ^ (8 * w) : Nat) : Int)).toNat with hn
  have hn_lt : n < 2 ^ (8 * w) := by omega
  have hl := toBytesLE_length w n
  rw [if_neg (by omega)]
  rw [List.take_of_length_le (by omega), List.drop_eq_nil_of_le (by omega)]
  rw [fromBytesLE_toBytesLE w n (by rw [pow_bridge]; exact hn_lt)]
  rcases le_or_lt 0 v with hv | hv
  · have hveq : v % ((2 ^ (8 * w) : Nat) : Int) = v := Int.emod_eq_of_lt hv (by omega)
    have hnv : (n : Int) = v := by omega
    unfold toSigned
    rw [if_pos (by omega), hnv]
  · have hveq : v % ((2 ^ (8 * w) : Nat) : Int) = v + ((2 ^ (8 * w) : Nat) : Int) := by
      have h1 : (v + ((2 ^ (8 * w) : Nat) : Int)) % ((2 ^ (8 * w) : Nat) : Int)
          = v % ((2 ^ (8 * w) : Nat) : Int) := by
        have h0 := @Int.add_mul_emod_self_left v ((2 ^ (8 * w) : Nat) : Int) 1
        simp only [mul_one] at h0
        exact h0
      have h2 : (v + ((2 ^ (8 * w) : Nat) : Int)) % ((2 ^ (8 * w) : Nat) : Int)
          = v + ((2 ^ (8 * w) : Nat) : Int) :=
        Int.emod_eq_of_lt (by omega) (by omega)
      rw [← h1]
      exact h2
    have hnv : (n : Int) = v + ((2 ^ (8 * w) : Nat) : Int) := by omega
    unfold toSigned
    rw [if_neg (by omega)]
    have hfin : ((n : Int)) - (2 : Int) ^ (8 * w) = v := by
      have hc : ((2 ^ (8 * w) : Nat) : Int) = (2 : Int) ^ (8 * w) := by push_cast; ring
      omega
    rw [hfin]

theorem GenericEvent.try_from_ok {b : Buffer} {e : GenericEvent}
    (h : GenericEvent.try_from b = .ok e) : e = ⟨b⟩ ∧ 32 ≤ b.length := by
  unfold GenericEvent.try_from at h
  dsimp only at h
  split_ifs at h with h1 h2 h3
  all_goals refine ⟨?_, by omega⟩
  all_goals injection h with h
  all_goals exact h.symm

theorem GenericError.try_from_event_ok {e : GenericEvent} {err : GenericError}
    (h : GenericError.try_from_event e = .ok err) :
    err = ⟨e.buffer⟩ ∧ e.response_type = 0 := by
  unfold GenericError.try_from_event at h
  split_ifs at h with h0
  refine ⟨?_, by omega⟩
  injection h with h
  exact h.symm

theorem GenericError.try_from_buffer_ok {b : Buffer} {err : GenericError}
    (h : GenericError.try_from b = .ok err) :
    ∃ ev, GenericEvent.try_from b = .ok ev ∧
      GenericError.try_from_event ev = .ok err := by
  unfold GenericError.try_from at h
  split at h
  · exact absurd h (by simp)
  · next ev heq => exact ⟨ev, heq, h⟩

/-- Every reachable buffer is at least 32 bytes long. -/
theorem Reachable.length_ge {k : PacketKind} {b : Buffer}
    (h : Reachable k b) : 32 ≤ b.length := by
  induction h with
  | event_of_buffer b e he =>
    obtain ⟨rfl, hlen⟩ := GenericEvent.try_from_ok he
    exact hlen
  | event_of_error b _ ih => exact ih
  | error_narrow b err _ hn ih =>
    obtain ⟨rfl, _⟩ := GenericError.try_from_event_ok hn
    exact ih
  | error_of_buffer b err he =>
    obtain ⟨ev, hev, hn⟩ := GenericError.try_from_buffer_ok he
    obtain ⟨rfl, hlen⟩ := GenericEvent.try_from_ok hev
    obtain ⟨rfl, _⟩ := GenericError.try_from_event_ok hn
    exact hlen

/-- The classifier in normal form: it accepts exactly the buffers satisfying
the total-length law and rejects everything else with `ParseError`. -/
theorem GenericEvent.try_from_spec (b : Buffer) :
    GenericEvent.try_from b =
      if classifier_length_law b then .ok ⟨b⟩ else .error .ParseError := by
  unfold GenericEvent.try_from classifier_length_law length_field_at_4
  unfold GenericEvent.response_type GenericEvent.raw_bytes
  dsimp only
  split_ifs <;> first | rfl | omega

/-- Every buffer reachable inside a `GenericError` has response type 0. -/
theorem Reachable.error_response_type {b : Buffer}
    (h : Reachable .error b) : Event.response_type b = 0 := by
  generalize hk : PacketKind.error = k at h
  induction h with
  | event_of_buffer b e he => exact absurd hk (by simp)
  | event_of_error b _ _ => exact absurd hk (by simp)
  | error_narrow b err _ hn _ =>
    obtain ⟨rfl, h0⟩ := GenericError.try_from_event_ok hn
    exact h0
  | error_of_buffer b err he =>
    obtain ⟨ev, hev, hn⟩ := GenericError.try_from_buffer_ok he
    obtain ⟨rfl, _⟩ := GenericEvent.try_from_ok hev
    obtain ⟨rfl, h0⟩ := GenericError.try_from_event_ok hn
    exact h0

/-! The claims. -/

/-- C1: converting a byte buffer into a classified packet
(`TryFrom<Buffer> for GenericEvent`) succeeds iff the response kind (byte 0
masked with 0x7f) being the reply kind or the generic-event kind implies
`len = 32 + 4 * L` (with `L` the 32-bit native-order length field at offset
4) and any other kind implies `len = 32`; every failing buffer, including
every buffer shorter than 32 bytes, is rejected with the typed
`ParseError`, never a panic. -/
theorem c1_generic_event_classification (b : Buffer) :
    ((∃ e, GenericEvent.try_from b = .ok e) ↔ classifier_length_law b) ∧
    (¬ classifier_length_law b → GenericEvent.try_from b = .error .ParseError) := by
  rw [GenericEvent.try_from_spec]
  by_cases h : classifier_length_law b <;> simp [h]

/-- C1 witness (concrete scenario 2): a 40-byte reply buffer with byte 0 = 1
and length field 2 classifies successfully; the 36-byte variant is rejected
with the typed error. -/
theorem c1_generic_event_classification_witness :
    (∃ e, GenericEvent.try_from
      ([1, 0, 0, 0, 2, 0, 0, 0] ++ List.replicate 32 0) = .ok e) ∧
    GenericEvent.try_from ([1, 0, 0, 0, 2, 0, 0, 0] ++ List.replicate 28 0) =
      .error .ParseError :=
  ⟨(c1_generic_event_classification ([1, 0, 0, 0, 2, 0, 0, 0] ++ List.replicate 32 0)).1.mpr
      (by decide),
   (c1_generic_event_classification ([1, 0, 0, 0, 2, 0, 0, 0] ++ List.replicate 28 0)).2
      (by decide)⟩

/-- C3: for a classified packet of at least 32 bytes, sequence-number
extraction returns `none` iff the response kind is the keymap-notify kind,
and otherwise returns `some` of the 16-bit native-order value at byte
offsets 2-3. -/
theorem c3_sequence_number (e : GenericEvent) (h : 32 ≤ e.buffer.length) :
    (e.raw_sequence_number = none ↔ e.response_type = KEYMAP_NOTIFY_EVENT) ∧
    (e.response_type ≠ KEYMAP_NOTIFY_EVENT →
      e.raw_sequence_number =
        some (u16_from_ne_bytes (e.buffer.getD 2 0) (e.buffer.getD 3 0))) := by
  unfold GenericEvent.raw_sequence_number GenericEvent.response_type
  unfold Event.raw_sequence_number GenericEvent.raw_bytes
  by_cases hk : Event.response_type e.buffer = KEYMAP_NOTIFY_EVENT <;> simp [hk]

/-- C3 witness (concrete scenario 1): a 32-byte error buffer with bytes 2-3
equal to 5 in native order yields sequence number 5. -/
theorem c3_sequence_number_witness :
    32 ≤ (GenericEvent.mk ([0, 0, 5, 0] ++ List.replicate 28 0)).buffer.length ∧
    (((GenericEvent.mk ([0, 0, 5, 0] ++ List.replicate 28 0)).raw_sequence_number = none ↔
      (GenericEvent.mk ([0, 0, 5, 0] ++ List.replicate 28 0)).response_type =
        KEYMAP_NOTIFY_EVENT) ∧
     ((GenericEvent.mk ([0, 0, 5, 0] ++ List.replicate 28 0)).response_type ≠
        KEYMAP_NOTIFY_EVENT →
      (GenericEvent.mk ([0, 0, 5, 0] ++ List.replicate 28 0)).raw_sequence_number =
        some (u16_from_ne_bytes
          (([0, 0, 5, 0] ++ List.replicate 28 0 : Buffer).getD 2 0)
          (([0, 0, 5, 0] ++ List.replicate 28 0 : Buffer).getD 3 0)))) :=
  ⟨by decide, c3_sequence_number (GenericEvent.mk ([0, 0, 5, 0] ++ List.replicate 28 0))
    (by decide)⟩

/-- C4 (amended): narrowing a classified packet to an error view succeeds
iff its response kind is 0; for any other kind it fails with the typed
`ParseError` - which is the same single error value the classifier uses for
length mismatches, not an error distinct from it. -/
theorem c4_narrowing (e : GenericEvent) :
    ((∃ err, GenericError.try_from_event e = .ok err) ↔ e.response_type = 0) ∧
    (e.response_type ≠ 0 → GenericError.try_from_event e = .error .ParseError) := by
  unfold GenericError.try_from_event
  by_cases h : e.response_type = 0 <;> simp [h]

/-- C4 counterexample: the error produced by narrowing a packet of kind 2 is
the very same `ParseError.ParseError` value that a length-mismatched buffer
produces, refuting the claim that the narrowing error (`WrongPacketKind`) is
distinct from the length-mismatch error (`MalformedPacket`). -/
theorem c4_narrowing_counterexample :
    GenericError.try_from_event ⟨List.replicate 32 2⟩ = .error .ParseError ∧
    GenericEvent.try_from (List.replicate 36 2) = .error .ParseError :=
  ⟨rfl, rfl⟩

/-- C4 witness: narrowing succeeds on a kind-0 packet and fails with the
typed error on a kind-7 packet. -/
theorem c4_narrowing_witness :
    (∃ err, GenericError.try_from_event ⟨List.replicate 32 0⟩ = .ok err) ∧
    GenericError.try_from_event ⟨List.replicate 32 7⟩ = .error .ParseError :=
  ⟨(c4_narrowing ⟨List.replicate 32 0⟩).1.mpr (by decide),
   (c4_narrowing ⟨List.replicate 32 7⟩).2 (by decide)⟩

/-- C8: serializing `true` yields exactly the byte 1 and `false` exactly the
byte 0, with no other encode output possible; parsing takes the first byte,
any nonzero byte yielding `true` and a zero byte yielding `false`. -/
theorem c8_bool_codec :
    bool_serialize true = [1] ∧ bool_serialize false = [0] ∧
    (∀ b : Bool, bool_serialize b = [1] ∨ bool_serialize b = [0]) ∧
    (∀ byte rest, byte ≠ 0 → bool_try_parse (byte :: rest) = .ok (true, rest)) ∧
    (∀ rest, bool_try_parse (0 :: rest) = .ok (false, rest)) := by
  refine ⟨rfl, rfl, ?_, ?_, ?_⟩
  · intro b
    cases b
    · right; rfl
    · left; rfl
  · intro byte rest h
    unfold bool_try_parse u8_try_parse uint_try_parse
    simp [fromBytesLE, h]
  · intro rest
    unfold bool_try_parse u8_try_parse uint_try_parse
    simp [fromBytesLE]

/-- C8 witness (concrete scenario 3): parsing the byte 0x07 yields `true`,
parsing 0x00 yields `false`. -/
theorem c8_bool_codec_witness :
    bool_try_parse [7] = .ok (true, []) ∧ bool_try_parse [0] = .ok (false, []) :=
  ⟨c8_bool_codec.2.2.2.1 7 [] (by decide), c8_bool_codec.2.2.2.2 []⟩

/-- C9: every packet buffer reachable through the public constructors has at
least 32 bytes, so the unchecked accesses at bytes 0 (raw response type),
1 (error code) and 2-3 (sequence number) are in bounds. -/
theorem c9_reachable_in_bounds (k : PacketKind) (b : Buffer) (h : Reachable k b) :
    32 ≤ b.length ∧ 0 < b.length ∧ 1 < b.length ∧ 2 < b.length ∧ 3 < b.length := by
  have h32 := h.length_ge
  omega

/-- C9 witness: the bounds at a concretely classified 32-byte buffer. -/
theorem c9_reachable_in_bounds_witness :
    32 ≤ (List.replicate 32 0 : Buffer).length ∧
    0 < (List.replicate 32 0 : Buffer).length ∧
    1 < (List.replicate 32 0 : Buffer).length ∧
    2 < (List.replicate 32 0 : Buffer).length ∧
    3 < (List.replicate 32 0 : Buffer).length :=
  c9_reachable_in_bounds .event (List.replicate 32 0)
    (Reachable.event_of_buffer (List.replicate 32 0) ⟨List.replicate 32 0⟩ rfl)

/-- C10: widening a constructible `GenericError` to a `GenericEvent` and
narrowing back always succeeds and returns the same error with the same
underlying buffer, because every constructible error has response kind 0. -/
theorem c10_widen_narrow (err : GenericError) (h : Reachable .error err.buffer) :
    GenericError.try_from_event (GenericEvent.from_error err) = .ok err := by
  have h0 : Event.response_type err.buffer = 0 := Reachable.error_response_type h
  unfold GenericError.try_from_event GenericEvent.from_error
  unfold GenericEvent.response_type GenericEvent.raw_bytes
  simp [h0]

/-- C10 witness: the round trip at a concretely constructed error. -/
theorem c10_widen_narrow_witness :
    GenericError.try_from_event (GenericEvent.from_error ⟨List.replicate 32 0⟩) =
      .ok ⟨List.replicate 32 0⟩ :=
  c10_widen_narrow ⟨List.replicate 32 0⟩
    (Reachable.error_of_buffer (List.replicate 32 0) ⟨List.replicate 32 0⟩ rfl)

/-- C2: for every primitive codec type and every value of that type,
parsing the serialization succeeds and returns exactly the value with an
empty remainder; floating-point values are compared by bit pattern. -/
theorem c2_roundtrip :
    (∀ v : Nat, v < 2 ^ 8 → u8_try_parse (u8_serialize v) = .ok (v, [])) ∧
    (∀ v : Nat, v < 2 ^ 16 → u16_try_parse (u16_serialize v) = .ok (v, [])) ∧
    (∀ v : Nat, v < 2 ^ 32 → u32_try_parse (u32_serialize v) = .ok (v, [])) ∧
    (∀ v : Nat, v < 2 ^ 64 → u64_try_parse (u64_serialize v) = .ok (v, [])) ∧
    (∀ v : Int, -(2 ^ 7) ≤ v → v < 2 ^ 7 →
      i8_try_parse (i8_serialize v) = .ok (v, [])) ∧
    (∀ v : Int, -(2 ^ 15) ≤ v → v < 2 ^ 15 →
      i16_try_parse (i16_serialize v) = .ok (v, [])) ∧
    (∀ v : Int, -(2 ^ 31) ≤ v → v < 2 ^ 31 →
      i32_try_parse (i32_serialize v) = .ok (v, [])) ∧
    (∀ v : Int, -(2 ^ 63) ≤ v → v < 2 ^ 63 →
      i64_try_parse (i64_serialize v) = .ok (v, [])) ∧
    (∀ f : F32, f.bits < 2 ^ 32 → f32_try_parse (f32_serialize f) = .ok (f, [])) ∧
    (∀ f : F64, f.bits < 2 ^ 64 → f64_try_parse (f64_serialize f) = .ok (f, [])) ∧
    (∀ b : Bool, bool_try_parse (bool_serialize b) = .ok (b, [])) := by
  refine ⟨?_, ?_, ?_, ?_, ?_, ?_, ?_, ?_, ?_, ?_, ?_⟩
  · intro v h
    exact uint_roundtrip 1 v h
  · intro v h
    exact uint_roundtrip 2 v h
  · intro v h
    exact uint_roundtrip 4 v h
  · intro v h
    exact uint_roundtrip 8 v h
  · intro v h1 h2
    exact int_roundtrip 1 (by norm_num) v (by exact_mod_cast h1) (by exact_mod_cast h2)
  · intro v h1 h2
    exact int_roundtrip 2 (by norm_num) v (by exact_mod_cast h1) (by exact_mod_cast h2)
  · intro v h1 h2
    exact int_roundtrip 4 (by norm_num) v (by exact_mod_cast h1) (by exact_mod_cast h2)
  · intro v h1 h2
    exact int_roundtrip 8 (by norm_num) v (by exact_mod_cast h1) (by exact_mod_cast h2)
  · intro f h
    have hr := uint_roundtrip 4 f.bits h
    unfold f32_try_parse f32_serialize u32_try_parse u32_serialize F32.to_bits
    rw [hr]
    rfl
  · intro f h
    have hr := uint_roundtrip 8 f.bits h
    unfold f64_try_parse f64_serialize u64_try_parse u64_serialize F64.to_bits
    rw [hr]
    rfl
  · intro b
    cases b <;> rfl

/-- C2 witness: the round trip evaluated at one concrete value per type,
including NaN bit patterns for the floats. -/
theorem c2_roundtrip_witness :
    u8_try_parse (u8_serialize 200) = .ok (200, []) ∧
    u16_try_parse (u16_serialize 40000) = .ok (40000, []) ∧
    u32_try_parse (u32_serialize 3000000000) = .ok (3000000000, []) ∧
    u64_try_parse (u64_serialize 12345678901234567890) = .ok (12345678901234567890, []) ∧
    i8_try_parse (i8_serialize (-5)) = .ok (-5, []) ∧
    i16_try_parse (i16_serialize (-30000)) = .ok (-30000, []) ∧
    i32_try_parse (i32_serialize (-2000000000)) = .ok (-2000000000, []) ∧
    i64_try_parse (i64_serialize (-9000000000000000000)) =
      .ok (-9000000000000000000, []) ∧
    f32_try_parse (f32_serialize ⟨2143289345⟩) = .ok (⟨2143289345⟩, []) ∧
    f64_try_parse (f64_serialize ⟨9221120237041090561⟩) =
      .ok (⟨9221120237041090561⟩, []) ∧
    bool_try_parse (bool_serialize true) = .ok (true, []) :=
  ⟨c2_roundtrip.1 200 (by decide),
   c2_roundtrip.2.1 40000 (by decide),
   c2_roundtrip.2.2.1 3000000000 (by decide),
   c2_roundtrip.2.2.2.1 12345678901234567890 (by decide),
   c2_roundtrip.2.2.2.2.1 (-5) (by decide) (by decide),
   c2_roundtrip.2.2.2.2.2.1 (-30000) (by decide) (by decide),
   c2_roundtrip.2.2.2.2.2.2.1 (-2000000000) (by decide) (by decide),
   c2_roundtrip.2.2.2.2.2.2.2.1 (-9000000000000000000) (by decide) (by decide),
   c2_roundtrip.2.2.2.2.2.2.2.2.1 ⟨2143289345⟩ (by decide),
   c2_roundtrip.2.2.2.2.2.2.2.2.2.1 ⟨9221120237041090561⟩ (by decide),
   c2_roundtrip.2.2.2.2.2.2.2.2.2.2 true⟩

/-- C7: the float codecs are pure bit reinterpretations of the same-width
unsigned codecs - decode is `from_bits` of the decoded unsigned integer,
encode serializes `to_bits` - so any well-formed wire pattern, NaN payloads
included, survives decode-then-encode exactly. -/
theorem c7_float_bit_reinterpretation :
    (∀ value : Buffer, f32_try_parse value =
      match u32_try_parse value with
      | .error e => .error e
      | .ok (data, remaining) => .ok (F32.from_bits data, remaining)) ∧
    (∀ f : F32, f32_serialize f = u32_serialize f.to_bits) ∧
    (∀ value : Buffer, f64_try_parse value =
      match u64_try_parse value with
      | .error e => .error e
      | .ok (data, remaining) => .ok (F64.from_bits data, remaining)) ∧
    (∀ f : F64, f64_serialize f = u64_serialize f.to_bits) ∧
    (∀ bs : Buffer, bs.length = 4 → ByteBuffer bs →
      f32_try_parse bs = .ok (F32.from_bits (fromBytesLE bs), []) ∧
      f32_serialize (F32.from_bits (fromBytesLE bs)) = bs) ∧
    (∀ bs : Buffer, bs.length = 8 → ByteBuffer bs →
      f64_try_parse bs = .ok (F64.from_bits (fromBytesLE bs), []) ∧
      f64_serialize (F64.from_bits (fromBytesLE bs)) = bs) := by
  refine ⟨fun _ => rfl, fun _ => rfl, fun _ => rfl, fun _ => rfl, ?_, ?_⟩
  · intro bs h4 hb
    constructor
    · unfold f32_try_parse u32_try_parse
      rw [uint_try_parse_long 4 bs (by omega)]
      rw [List.take_of_length_le (by omega), List.drop_eq_nil_of_le (by omega)]
    · unfold f32_serialize u32_serialize uint_serialize F32.to_bits F32.from_bits
      have hrt := toBytesLE_fromBytesLE bs hb
      rw [h4] at hrt
      exact hrt
  · intro bs h8 hb
    constructor
    · unfold f64_try_parse u64_try_parse
      rw [uint_try_parse_long 8 bs (by omega)]
      rw [List.take_of_length_le (by omega), List.drop_eq_nil_of_le (by omega)]
    · unfold f64_serialize u64_serialize uint_serialize F64.to_bits F64.from_bits
      have hrt := toBytesLE_fromBytesLE bs hb
      rw [h8] at hrt
      exact hrt

/-- C7 witness: decode-then-encode preserves a quiet-NaN f32 wire pattern
(bits 0x7FC00001, little-endian bytes [1, 0, 192, 127]) exactly. -/
theorem c7_float_bit_reinterpretation_witness :
    f32_try_parse [1, 0, 192, 127] =
      .ok (F32.from_bits (fromBytesLE [1, 0, 192, 127]), []) ∧
    f32_serialize (F32.from_bits (fromBytesLE [1, 0, 192, 127])) = [1, 0, 192, 127] :=
  c7_float_bit_reinterpretation.2.2.2.2.1 [1, 0, 192, 127] (by decide) (by decide)

/-- C5: for every fixed-width primitive codec type, parsing a buffer shorter
than the type's width returns the typed `ParseError` (no access past the
end exists in the model - the parser is total), and parsing a buffer at
least as long succeeds, consuming exactly the first `size_of(T)` bytes and
returning the untouched remainder. -/
theorem c5_fixed_width_parse :
    (∀ value : Buffer, value.length < 1 → u8_try_parse value = .error .ParseError) ∧
    (∀ value : Buffer, 1 ≤ value.length →
      ∃ v, u8_try_parse value = .ok (v, value.drop 1)) ∧
    (∀ value : Buffer, value.length < 2 → u16_try_parse value = .error .ParseError) ∧
    (∀ value : Buffer, 2 ≤ value.length →
      ∃ v, u16_try_parse value = .ok (v, value.drop 2)) ∧
    (∀ value : Buffer, value.length < 4 → u32_try_parse value = .error .ParseError) ∧
    (∀ value : Buffer, 4 ≤ value.length →
      ∃ v, u32_try_parse value = .ok (v, value.drop 4)) ∧
    (∀ value : Buffer, value.length < 8 → u64_try_parse value = .error .ParseError) ∧
    (∀ value : Buffer, 8 ≤ value.length →
      ∃ v, u64_try_parse value = .ok (v, value.drop 8)) ∧
    (∀ value : Buffer, value.length < 1 → i8_try_parse value = .error .ParseError) ∧
    (∀ value : Buffer, 1 ≤ value.length →
      ∃ v, i8_try_parse value = .ok (v, value.drop 1)) ∧
    (∀ value : Buffer, value.length < 2 → i16_try_parse value = .error .ParseError) ∧
    (∀ value : Buffer, 2 ≤ value.length →
      ∃ v, i16_try_parse value = .ok (v, value.drop 2)) ∧
    (∀ value : Buffer, value.length < 4 → i32_try_parse value = .error .ParseError) ∧
    (∀ value : Buffer, 4 ≤ value.length →
      ∃ v, i32_try_parse value = .ok (v, value.drop 4)) ∧
    (∀ value : Buffer, value.length < 8 → i64_try_parse value = .error .ParseError) ∧
    (∀ value : Buffer, 8 ≤ value.length →
      ∃ v, i64_try_parse value = .ok (v, value.drop 8)) ∧
    (∀ value : Buffer, value.length < 4 → f32_try_parse value = .error .ParseError) ∧
    (∀ value : Buffer, 4 ≤ value.length →
      ∃ v, f32_try_parse value = .ok (v, value.drop 4)) ∧
    (∀ value : Buffer, value.length < 8 → f64_try_parse value = .error .ParseError) ∧
    (∀ value : Buffer, 8 ≤ value.length →
      ∃ v, f64_try_parse value = .ok (v, value.drop 8)) ∧
    (∀ value : Buffer, value.length < 1 → bool_try_parse value = .error .ParseError) ∧
    (∀ value : Buffer, 1 ≤ value.length →
      ∃ v, bool_try_parse value = .ok (v, value.drop 1)) := by
  refine ⟨fun value h => uint_try_parse_short 1 value h,
    fun value h => ⟨_, uint_try_parse_long 1 value h⟩,
    fun value h => uint_try_parse_short 2 value h,
    fun value h => ⟨_, uint_try_parse_long 2 value h⟩,
    fun value h => uint_try_parse_short 4 value h,
    fun value h => ⟨_, uint_try_parse_long 4 value h⟩,
    fun value h => uint_try_parse_short 8 value h,
    fun value h => ⟨_, uint_try_parse_long 8 value h⟩,
    fun value h => int_try_parse_short 1 value h,
    fun value h => ⟨_, int_try_parse_long 1 value h⟩,
    fun value h => int_try_parse_short 2 value h,
    fun value h => ⟨_, int_try_parse_long 2 value h⟩,
    fun value h => int_try_parse_short 4 value h,
    fun value h => ⟨_, int_try_parse_long 4 value h⟩,
    fun value h => int_try_parse_short 8 value h,
    fun value h => ⟨_, int_try_parse_long 8 value h⟩,
    ?_, ?_, ?_, ?_, ?_, ?_⟩
  · intro value h
    unfold f32_try_parse u32_try_parse
    rw [uint_try_parse_short 4 value h]
  · intro value h
    refine ⟨F32.from_bits (fromBytesLE (value.take 4)), ?_⟩
    unfold f32_try_parse u32_try_parse
    rw [uint_try_parse_long 4 value h]
  · intro value h
    unfold f64_try_parse u64_try_parse
    rw [uint_try_parse_short 8 value h]
  · intro value h
    refine ⟨F64.from_bits (fromBytesLE (value.take 8)), ?_⟩
    unfold f64_try_parse u64_try_parse
    rw [uint_try_parse_long 8 value h]
  · intro value h
    unfold bool_try_parse u8_try_parse
    rw [uint_try_parse_short 1 value h]
  · intro value h
    refine ⟨decide (fromBytesLE (value.take 1) ≠ 0), ?_⟩
    unfold bool_try_parse u8_try_parse
    rw [uint_try_parse_long 1 value h]

/-- C5 witness: truncation on a concrete 3-byte buffer for a 4-byte type and
exact consumption on a concrete 5-byte buffer. -/
theorem c5_fixed_width_parse_witness :
    u32_try_parse [1, 2, 3] = .error .ParseError ∧
    (∃ v, u32_try_parse [1, 2, 3, 4, 5] = .ok (v, List.drop 4 [1, 2, 3, 4, 5])) ∧
    i16_try_parse [9] = .error .ParseError ∧
    (∃ v, i16_try_parse [9, 9, 9] = .ok (v, List.drop 2 [9, 9, 9])) ∧
    f64_try_parse [1, 2, 3, 4, 5, 6, 7] = .error .ParseError ∧
    (∃ v, f64_try_parse [1, 2, 3, 4, 5, 6, 7, 8] =
      .ok (v, List.drop 8 [1, 2, 3, 4, 5, 6, 7, 8])) ∧
    bool_try_parse [] = .error .ParseError ∧
    (∃ v, bool_try_parse [7, 1] = .ok (v, List.drop 1 [7, 1])) :=
  ⟨c5_fixed_width_parse.2.2.2.2.1 [1, 2, 3] (by decide),
   c5_fixed_width_parse.2.2.2.2.2.1 [1, 2, 3, 4, 5] (by decide),
   c5_fixed_width_parse.2.2.2.2.2.2.2.2.2.2.1 [9] (by decide),
   c5_fixed_width_parse.2.2.2.2.2.2.2.2.2.2.2.1 [9, 9, 9] (by decide),
   c5_fixed_width_parse.2.2.2.2.2.2.2.2.2.2.2.2.2.2.2.2.2.2.1
     [1, 2, 3, 4, 5, 6, 7] (by decide),
   c5_fixed_width_parse.2.2.2.2.2.2.2.2.2.2.2.2.2.2.2.2.2.2.2.1
     [1, 2, 3, 4, 5, 6, 7, 8] (by decide),
   c5_fixed_width_parse.2.2.2.2.2.2.2.2.2.2.2.2.2.2.2.2.2.2.2.2.1 [] (by decide),
   c5_fixed_width_parse.2.2.2.2.2.2.2.2.2.2.2.2.2.2.2.2.2.2.2.2.2 [7, 1] (by decide)⟩

/-- C6: when the connection reports the extension as absent
(`extension_information = Ok(None)`), every xinerama request function
returns `UnsupportedExtension` and never submits anything to the transport
(the submission log is unchanged); when it reports an `ExtensionInfo`, the
request is serialized with that info's `major_opcode` and exactly that
submission is handed to the transport. -/
theorem c6_extension_dispatch (conn : ModelConnection) :
    (conn.extension_information = .ok none →
      (∀ major minor, query_version conn major minor =
        (.error .UnsupportedExtension, conn)) ∧
      (∀ window, get_state conn window = (.error .UnsupportedExtension, conn)) ∧
      (∀ window, get_screen_count conn window = (.error .UnsupportedExtension, conn)) ∧
      (∀ window screen, get_screen_size conn window screen =
        (.error .UnsupportedExtension, conn)) ∧
      is_active conn = (.error .UnsupportedExtension, conn) ∧
      query_screens conn = (.error .UnsupportedExtension, conn)) ∧
    (∀ info : ExtensionInfo, conn.extension_information = .ok (some info) →
      (∀ major minor, query_version conn major minor =
        (.ok ⟨conn.sent.length⟩,
         ⟨conn.extension_information,
          conn.sent ++ [QueryVersionRequest.serialize ⟨major, minor⟩ info.major_opcode]⟩)) ∧
      (∀ window, get_state conn window =
        (.ok ⟨conn.sent.length⟩,
         ⟨conn.extension_information,
          conn.sent ++ [GetStateRequest.serialize ⟨window⟩ info.major_opcode]⟩)) ∧
      (∀ window, get_screen_count conn window =
        (.ok ⟨conn.sent.length⟩,
         ⟨conn.extension_information,
          conn.sent ++ [GetScreenCountRequest.serialize ⟨window⟩ info.major_opcode]⟩)) ∧
      (∀ window screen, get_screen_size conn window screen =
        (.ok ⟨conn.sent.length⟩,
         ⟨conn.extension_information,
          conn.sent ++
            [GetScreenSizeRequest.serialize ⟨window, screen⟩ info.major_opcode]⟩)) ∧
      is_active conn =
        (.ok ⟨conn.sent.length⟩,
         ⟨conn.extension_information,
          conn.sent ++ [IsActiveRequest.serialize ⟨⟩ info.major_opcode]⟩) ∧
      query_screens conn =
        (.ok ⟨conn.sent.length⟩,
         ⟨conn.extension_information,
          conn.sent ++ [QueryScreensRequest.serialize ⟨⟩ info.major_opcode]⟩)) := by
  constructor
  · intro h
    have hop : major_opcode conn = .error .UnsupportedExtension := by
      unfold major_opcode
      rw [h]
    refine ⟨?_, ?_, ?_, ?_, ?_, ?_⟩ <;>
      simp [query_version, send_query_version, get_state, send_get_state,
        get_screen_count, send_get_screen_count, get_screen_size,
        send_get_screen_size, is_active, send_is_active, query_screens,
        send_query_screens, hop]
  · intro info h
    have hop : major_opcode conn = .ok info.major_opcode := by
      unfold major_opcode
      rw [h]
    refine ⟨?_, ?_, ?_, ?_, ?_, ?_⟩ <;>
      simp [query_version, send_query_version, get_state, send_get_state,
        get_screen_count, send_get_screen_count, get_screen_size,
        send_get_screen_size, is_active, send_is_active, query_screens,
        send_query_screens, hop, ModelConnection.send_request_with_reply]

/-- C6 witness (concrete scenario 4): on a connection reporting the
extension absent, `query_version` fails with `UnsupportedExtension` and the
transport log stays empty; on a connection reporting opcode 140, the
serialized request carries opcode 140 and is the only submission. -/
theorem c6_extension_dispatch_witness :
    query_version ⟨.ok none, []⟩ 1 1 =
      (.error .UnsupportedExtension, (⟨.ok none, []⟩ : ModelConnection)) ∧
    query_version ⟨.ok (some ⟨140, 0, 0⟩), []⟩ 1 1 =
      (.ok ⟨0⟩,
       (⟨.ok (some ⟨140, 0, 0⟩),
         [QueryVersionRequest.serialize ⟨1, 1⟩ 140]⟩ : ModelConnection)) :=
  ⟨((c6_extension_dispatch ⟨.ok none, []⟩).1 rfl).1 1 1,
   ((c6_extension_dispatch ⟨.ok (some ⟨140, 0, 0⟩), []⟩).2 ⟨140, 0, 0⟩ rfl).1 1 1⟩

end X11
